import Mathlib

/-!
Verification of the sandboxed runtime session orchestrator of the Editon
browser code editor.  The definitions below are a shallow embedding of
`src/modules/webcontainers/components/terminal.tsx` (the pseudo-terminal view,
the shell session bridge and the staged setup orchestrator of
`WebContainerPreview`) and of `src/modules/webcontainers/hooks/useWebContainer.ts`
(the runtime session manager hook).  External sandbox behaviour (file reads,
mount, spawn results, exit codes) is supplied through explicit environment
records; the effects the code performs (terminal writes, mount, spawns,
listener attachment, teardown calls) are recorded as traces of events.
-/

namespace Editon

/-! ### Pseudo-terminal view (TerminalComponent imperative handle)

The component keeps `term.current : Terminal | null` in a ref and every public
operation goes through optional chaining (`term.current?.write(data)` etc.).
The surface is modelled as a buffer of written chunks plus a focus flag; the
ref is an `Option TermSurface`, `none` before initialization and after
disposal (the cleanup sets `term.current = null`). -/

structure TermSurface where
  buf : List String
  focused : Bool
  deriving Repr, DecidableEq

/-- Model of `writeToTerminal`: `term.current?.write(data)`. -/
def writeToTerminal : Option TermSurface → String → Option TermSurface
  | none, _ => none
  | some t, data => some { t with buf := t.buf ++ [data] }

/-- Model of `clearTerminal`: `term.current?.clear()`. -/
def clearTerminal : Option TermSurface → Option TermSurface
  | none => none
  | some t => some { t with buf := [] }

/-- Model of `focusTerminal`: `term.current?.focus()`. -/
def focusTerminal : Option TermSurface → Option TermSurface
  | none => none
  | some t => some { t with focused := true }

/-- Model of the effect cleanup `terminal.dispose(); term.current = null`:
after disposal the ref holds nothing. -/
def disposeTerminal (_ : Option TermSurface) : Option TermSurface := none

/-! ### Shell session bridge (startShell, resize listener, exit handler)

After a successful spawn the code sets `shellProcessRef.current = shellProcess`
and then registers the resize listener.  The two mutable facts the resize
handler depends on are whether the process ref is still set and whether the
listener itself is still attached.  The only operations that mutate them
afterwards are the process-exit handler (which disposes the listeners and
clears the ref) and the effect cleanup (which kills the process, clears the
ref and disposes the whole terminal, detaching every listener).  Resize
events themselves mutate neither. -/

structure ShellState where
  refPresent : Bool
  listenerLive : Bool
  deriving Repr, DecidableEq

inductive ShellEvent where
  | exitHandler
  | cleanup
  | resize (cols rows : Int)
  deriving Repr, DecidableEq

/-- State right after a successful spawn: the ref is set (line
`shellProcessRef.current = shellProcess`) and the freshly registered resize
listener is live. -/
def shellInit : ShellState := { refPresent := true, listenerLive := true }

/-- One lifecycle event of the shell bridge.  The exit handler runs
`dataListener.dispose(); resizeListener.dispose(); shellProcessRef.current = null`;
the effect cleanup kills the process, clears the ref and disposes the terminal
(which detaches the listener).  A resize event touches neither field. -/
def shellStep : ShellEvent → ShellState → ShellState
  | ShellEvent.exitHandler, _ => { refPresent := false, listenerLive := false }
  | ShellEvent.cleanup, _ => { refPresent := false, listenerLive := false }
  | ShellEvent.resize _ _, s => s

def shellRun : List ShellEvent → ShellState → ShellState
  | [], s => s
  | e :: es, s => shellRun es (shellStep e s)

/-- Guard of the resize listener:
`if (size.cols > 0 && size.rows > 0 && shellProcessRef.current)` — the resize
is forwarded to `shellProcess.resize` exactly when this is true. -/
def resizeForward (cols rows : Int) (refPresent : Bool) : Bool :=
  decide (0 < cols) && decide (0 < rows) && refPresent

/-! ### Session setup orchestrator (WebContainerPreview.setupContainer)

The component state mirrors the React state of `WebContainerPreview`; the
environment record supplies the results of every sandbox-boundary call the
run makes, and the run returns the final component state together with the
trace of effects it performed. -/

structure PreviewState where
  previewUrl : String
  currentStep : Nat
  internalError : Option String
  isSetupComplete : Bool
  isSetupInProgress : Bool
  deriving Repr, DecidableEq

/-- Effects performed by one setup run, in order. -/
inductive SetupEvent where
  | termWrite (s : String)
  | mountFiles
  | rmLockFile
  | spawnInstall
  | spawnStart (script : String)
  | attachServerReady
  deriving Repr, DecidableEq

/-- Results of the external calls a setup run can make.
`readPkgDetect`/`readPkgStart` are the two `instance.fs.readFile("package.json")`
calls (`none` means the read throws); `parseScriptsDev raw` is `JSON.parse(raw)`
followed by the truthiness of `pkg.scripts && pkg.scripts.dev` (`none` means
the parse throws); the `*Err` fields carry the message of a thrown error from
`instance.mount` / `instance.spawn`; `rmLockOk` is whether
`instance.fs.rm("package-lock.json")` succeeds; `installExitCode` is the
awaited exit code of the install process. -/
structure SetupEnv where
  readPkgDetect : Option String
  mountErr : Option String
  rmLockOk : Bool
  spawnInstallErr : Option String
  installExitCode : Nat
  readPkgStart : Option String
  parseScriptsDev : String → Option Bool
  spawnStartErr : Option String

def reconnectMsg : String := "🔄 Files detected. Reconnecting session...\r\n"

def preparingMsg : String := "📦 Preparing file system...\r\n"

def mountedMsg : String := "✅ File system mounted.\r\n"

def installingMsg : String := "📥 Installing dependencies... (this may take a moment)\r\n"

def removedLockMsg : String := "   (removed existing package-lock.json to ensure compatibility)\r\n"

def manualInstallMsg : String := "⚠️ You can try running npm install manually in this terminal.\r\n"

def depsInstalledMsg : String := "✅ Dependencies installed.\r\n"

def pkgReadWarnMsg : String := "⚠️ Could not read package.json scripts, defaulting to npm start\r\n"

def installFailMsg (code : Nat) : String :=
  "❌ npm install failed with code " ++ toString code ++ ". See terminal for details."

def startingMsg (cmd : String) : String :=
  "🚀 Starting server with npm run " ++ cmd ++ "...\r\n"

def fatalMsg (msg : String) : String := "\r\n❌ Fatal Error: " ++ msg ++ "\r\n"

/-- The `catch (err)` handler of `setupContainer`: records the error, writes
the fatal line, clears the in-progress flag and marks setup complete so the
spinner stops. -/
def setupCatch (msg : String) (s : PreviewState) (evs : List SetupEvent) :
    PreviewState × List SetupEvent :=
  ({ s with internalError := some msg, isSetupInProgress := false, isSetupComplete := true },
   evs ++ [SetupEvent.termWrite (fatalMsg msg)])

/-- The detection test of the reconnect check:
`const packageJsonExists = await instance.fs.readFile("package.json", "utf8");`
`if (packageJsonExists && !forceResetup) isReconnecting = true;`
A thrown read is swallowed, and the JavaScript truthiness test on the returned
string makes an empty file count as absent. -/
def isReconnectingOf (env : SetupEnv) (forceResetup : Bool) : Bool :=
  match env.readPkgDetect with
  | some content => if content ≠ "" ∧ forceResetup = false then true else false
  | none => false

/-- STEP 4 of `setupContainer`: pick the run script (`dev` when the manifest
is readable, parses, and has a truthy `scripts.dev`; otherwise `start`, with
a warning when the read or parse threw), write the starting line, spawn
`npm run <cmd>` and attach the `server-ready` listener. -/
def startPhase (env : SetupEnv) (s : PreviewState) : PreviewState × List SetupEvent :=
  let s1 := { s with currentStep := 4 }
  let cmdEvs : String × List SetupEvent :=
    match env.readPkgStart with
    | none => ("start", [SetupEvent.termWrite pkgReadWarnMsg])
    | some raw =>
      match env.parseScriptsDev raw with
      | none => ("start", [SetupEvent.termWrite pkgReadWarnMsg])
      | some hasDev => (if hasDev = true then "dev" else "start", [])
  let evs := cmdEvs.2 ++ [SetupEvent.termWrite (startingMsg cmdEvs.1)]
  match env.spawnStartErr with
  | some msg => setupCatch msg s1 evs
  | none =>
    ({ s1 with isSetupComplete := true, isSetupInProgress := false },
     evs ++ [SetupEvent.spawnStart cmdEvs.1, SetupEvent.attachServerReady])

/-- STEP 3 of `setupContainer`: write the installing line, best-effort remove
the lock file, spawn `npm install --no-optional --legacy-peer-deps`, await its
exit code; a non-zero code reports the error, marks setup complete and stops
before the start phase. -/
def installPhase (env : SetupEnv) (s : PreviewState) : PreviewState × List SetupEvent :=
  let s1 := { s with currentStep := 3 }
  let evs0 := [SetupEvent.termWrite installingMsg]
  let evs1 :=
    if env.rmLockOk = true then
      evs0 ++ [SetupEvent.rmLockFile, SetupEvent.termWrite removedLockMsg]
    else evs0
  match env.spawnInstallErr with
  | some msg => setupCatch msg s1 evs1
  | none =>
    let evs2 := evs1 ++ [SetupEvent.spawnInstall]
    if env.installExitCode ≠ 0 then
      ({ s1 with internalError := some (installFailMsg env.installExitCode),
                 isSetupComplete := true, isSetupInProgress := false },
       evs2 ++ [SetupEvent.termWrite ("\r\n" ++ installFailMsg env.installExitCode ++ "\r\n"),
                SetupEvent.termWrite manualInstallMsg])
    else
      let r := startPhase env s1
      (r.1, evs2 ++ [SetupEvent.termWrite depsInstalledMsg] ++ r.2)

/-- STEPS 1–2 of `setupContainer`: prepare the mount descriptor
(`transformToWebContainerFormat`), mount it, then continue with the install
phase; a thrown mount lands in the catch handler. -/
def mountPhase (env : SetupEnv) (s : PreviewState) : PreviewState × List SetupEvent :=
  let s1 := { s with currentStep := 1 }
  let evs := [SetupEvent.termWrite preparingMsg]
  let s2 := { s1 with currentStep := 2 }
  match env.mountErr with
  | some msg => setupCatch msg s2 evs
  | none =>
    let r := installPhase env s2
    (r.1, evs ++ [SetupEvent.mountFiles, SetupEvent.termWrite mountedMsg] ++ r.2)

/-- Body of `setupContainer` after the guards: the reconnect check, then the
staged mount → install → start pipeline.  On reconnect the run only writes
the reconnect line, attaches the `server-ready` listener and finishes. -/
def runSetupBody (env : SetupEnv) (forceResetup : Bool) (s : PreviewState) :
    PreviewState × List SetupEvent :=
  if isReconnectingOf env forceResetup = true then
    ({ s with isSetupComplete := true, isSetupInProgress := false },
     [SetupEvent.termWrite reconnectMsg, SetupEvent.attachServerReady])
  else
    mountPhase env s

/-- The whole `setupContainer` entry point including its guards:
`if (!instance || isSetupComplete || isSetupInProgress) return;`
`if (parentLoading) return;`
then `setIsSetupInProgress(true); setInternalError(null);` and the body. -/
def setupContainer (env : SetupEnv) (instancePresent parentLoading forceResetup : Bool)
    (s0 : PreviewState) : PreviewState × List SetupEvent :=
  if instancePresent = false ∨ s0.isSetupComplete = true ∨ s0.isSetupInProgress = true then
    (s0, [])
  else if parentLoading = true then (s0, [])
  else runSetupBody env forceResetup { s0 with isSetupInProgress := true, internalError := none }

/-- The `forceResetup` effect of `WebContainerPreview` (the `useEffect` that
fires when the flag turns on): resets completion, progress, preview URL,
error and step counter before the setup effect re-runs. -/
def forceResetEffect (s : PreviewState) : PreviewState :=
  { s with isSetupComplete := false, isSetupInProgress := false,
           previewUrl := "", internalError := none, currentStep := 0 }

/-- The run-script selection of the start stage, factored out of `startPhase`:
`dev` when the manifest read and parse succeed and `scripts.dev` is truthy,
`start` otherwise. -/
def startCmdOf (env : SetupEnv) : String :=
  match env.readPkgStart with
  | none => "start"
  | some raw =>
    match env.parseScriptsDev raw with
    | none => "start"
    | some hasDev => if hasDev = true then "dev" else "start"

/-! ### Runtime session manager (useWebContainer)

The hook keeps React state (`instance`, `serverUrl`, `isReady`, `isLoading`,
`error`), two refs (`isTornDown`, `isInitializing`) and two effect-local
variables (`mounted`, `containerRef`).  Its behaviour is a step function over
events: the start of `initializeWebContainer`, the resolution or rejection of
`WebContainer.boot()`, the effect cleanup, and the manual `destroy`.  Actions
record what is done with booted instances (identified by numbers): published
to the caller, torn down synchronously, or teardown scheduled after a delay. -/

structure HookState where
  mounted : Bool
  initializing : Bool
  tornDown : Bool
  containerRef : Option Nat
  inst : Option Nat
  serverUrl : Option String
  isReady : Bool
  isLoading : Bool
  errMsg : Option String
  deriving Repr, DecidableEq

inductive HookEvent where
  | initStart
  | bootOk (i : Nat)
  | bootFail (msg : String)
  | cleanup
  | destroy
  deriving Repr, DecidableEq

inductive HookAction where
  | publish (i : Nat)
  | teardownNow (i : Nat)
  | scheduleTeardown (i : Nat) (delayMs : Nat)
  deriving Repr, DecidableEq

/-- Fresh hook state at the first render of the effect. -/
def hookInit : HookState :=
  { mounted := true, initializing := false, tornDown := false, containerRef := none,
    inst := none, serverUrl := none, isReady := false, isLoading := true, errMsg := none }

/-- One event of the hook lifecycle, as written in `useWebContainer.ts`:

* `initStart` — entry of `initializeWebContainer`, which returns at once when
  `isInitializing.current || isTornDown.current` and otherwise sets the
  initializing flag;
* `bootOk i` — `WebContainer.boot()` resolved with instance `i`: when
  `!mounted || isTornDown.current` the fresh instance is torn down immediately
  and never published, otherwise it is captured in `containerRef`, published
  through `setInstance`, and the ready/loading flags are updated; the
  `finally` clears the initializing flag in both branches;
* `bootFail msg` — the boot rejected; the error is shown only when still
  mounted; the `finally` clears the initializing flag;
* `cleanup` — the effect cleanup: `mounted = false`, and when `containerRef`
  holds an instance not yet torn down it sets the torn-down flag and schedules
  `containerRef.teardown()` behind a 100 ms `setTimeout`;
* `destroy` — the manual destroy: when an instance is held and not yet torn
  down it sets the torn-down flag, tears down synchronously and clears the
  published state. -/
def hookStep : HookEvent → HookState → HookState × List HookAction
  | HookEvent.initStart, s =>
    if s.initializing = true ∨ s.tornDown = true then (s, [])
    else ({ s with initializing := true }, [])
  | HookEvent.bootOk i, s =>
    if s.mounted = false ∨ s.tornDown = true then
      ({ s with initializing := false }, [HookAction.teardownNow i])
    else
      ({ s with initializing := false, containerRef := some i, inst := some i,
                isReady := true, isLoading := false },
       [HookAction.publish i])
  | HookEvent.bootFail msg, s =>
    if s.mounted = true then
      ({ s with initializing := false, errMsg := some msg, isLoading := false }, [])
    else ({ s with initializing := false }, [])
  | HookEvent.cleanup, s =>
    let s1 := { s with mounted := false }
    match s.containerRef with
    | some i =>
      if s.tornDown = false then
        ({ s1 with tornDown := true }, [HookAction.scheduleTeardown i 100])
      else (s1, [])
    | none => (s1, [])
  | HookEvent.destroy, s =>
    match s.inst with
    | some i =>
      if s.tornDown = false then
        ({ s with tornDown := true, inst := none, serverUrl := none, isReady := false },
         [HookAction.teardownNow i])
      else (s, [])
    | none => (s, [])

def hookRun : List HookEvent → HookState → HookState × List HookAction
  | [], s => (s, [])
  | e :: es, s =>
    let r1 := hookStep e s
    let r2 := hookRun es r1.1
    (r2.1, r1.2 ++ r2.2)

/-! ### writeFileSync and the sandbox filesystem

`writeFileSync` guards on `!instance || isTornDown.current`, then runs
`fs.mkdir(folderPath, { recursive: true })` for the directory part of the
path (skipped when there is none) followed by `fs.writeFile(path, content)`,
wrapping any error from those two calls with a message that names the path.
The sandbox filesystem is modelled with explicit directory and file lists;
a recursive mkdir creates every prefix directory, and a plain file write
requires its parent directory to exist. -/

structure ContainerFS where
  dirs : List String
  files : List (String × String)
  deriving Repr, DecidableEq

/-- All prefixes of a component list, joined back with `/`: the directories a
recursive mkdir creates. -/
def ancestorPaths (parts : List String) : List String :=
  (List.range parts.length).map (fun i => String.intercalate "/" (List.take (i + 1) parts))

/-- `fs.mkdir(folderPath, { recursive: true })`. -/
def mkdirRecursive (fs : ContainerFS) (parts : List String) : ContainerFS :=
  { fs with dirs := fs.dirs ++ ancestorPaths parts }

/-- Directory part of a path, as computed in the source:
`path.split("/").slice(0, -1).join("/")`. -/
def folderPathOf (path : String) : String :=
  String.intercalate "/" ((path.splitOn "/").dropLast)

/-- `fs.writeFile(path, content)`: succeeds when the parent directory exists
(or the path is at the root), failing with an ENOENT-style error otherwise. -/
def fsWriteFile (fs : ContainerFS) (path content : String) : Except String ContainerFS :=
  if folderPathOf path = "" ∨ folderPathOf path ∈ fs.dirs then
    Except.ok { fs with files := (path, content) :: fs.files }
  else
    Except.error "ENOENT: no such file or directory"

structure SessionState where
  instancePresent : Bool
  tornDown : Bool
  fs : ContainerFS
  deriving Repr, DecidableEq

/-- `writeFileSync` from `useWebContainer.ts`, line for line: the
absent/torn-down guard throws a fixed message, then the directory part is
created recursively when non-empty, the file is written, and errors from the
filesystem calls are re-thrown wrapped with the path. -/
def writeFileSync (st : SessionState) (path content : String) : Except String ContainerFS :=
  if st.instancePresent = false ∨ st.tornDown = true then
    Except.error "WebContainer instance is not available"
  else
    let folderParts := (path.splitOn "/").dropLast
    let folderPath := String.intercalate "/" folderParts
    let fs1 := if folderPath = "" then st.fs else mkdirRecursive st.fs folderParts
    match fsWriteFile fs1 path content with
    | Except.ok fs2 => Except.ok fs2
    | Except.error msg =>
      Except.error ("Failed to write file at " ++ path ++ ": " ++ msg)

/-- Boolean test that `sub` occurs as a contiguous run inside the second list. -/
def hasSubSeq (sub : List Char) : List Char → Bool
  | [] => List.isEmpty sub
  | c :: t => List.isPrefixOf sub (c :: t) || hasSubSeq sub t

/-! ### Concrete sample values used by counterexamples and witnesses -/

/-- Fresh component state of `WebContainerPreview` before any setup run. -/
def freshPreview : PreviewState :=
  { previewUrl := "", currentStep := 0, internalError := none,
    isSetupComplete := false, isSetupInProgress := false }

/-- Component state while a setup run is already in progress. -/
def busyPreview : PreviewState :=
  { previewUrl := "", currentStep := 2, internalError := none,
    isSetupComplete := false, isSetupInProgress := true }

/-- Component state after a completed run that published a preview URL. -/
def usedPreview : PreviewState :=
  { previewUrl := "https://preview.local", currentStep := 4, internalError := some "old",
    isSetupComplete := true, isSetupInProgress := false }

/-- Sandbox whose root holds a readable but empty `package.json`, with every
later call succeeding. -/
def envEmptyPkg : SetupEnv :=
  { readPkgDetect := some "", mountErr := none, rmLockOk := false,
    spawnInstallErr := none, installExitCode := 0, readPkgStart := none,
    parseScriptsDev := fun _ => none, spawnStartErr := none }

/-- Sandbox whose root holds a non-empty `package.json`. -/
def envProvisioned : SetupEnv :=
  { readPkgDetect := some "x", mountErr := none, rmLockOk := false,
    spawnInstallErr := none, installExitCode := 0, readPkgStart := some "x",
    parseScriptsDev := fun _ => some true, spawnStartErr := none }

/-- Fresh sandbox where the install process exits with code 1. -/
def envInstallFails : SetupEnv :=
  { readPkgDetect := none, mountErr := none, rmLockOk := true,
    spawnInstallErr := none, installExitCode := 1, readPkgStart := none,
    parseScriptsDev := fun _ => none, spawnStartErr := none }

/-- Fresh sandbox where everything succeeds and the manifest defines a
`scripts.dev` entry. -/
def envDev : SetupEnv :=
  { readPkgDetect := none, mountErr := none, rmLockOk := false,
    spawnInstallErr := none, installExitCode := 0, readPkgStart := some "pkg",
    parseScriptsDev := fun _ => some true, spawnStartErr := none }

/-- Session whose teardown has already been requested. -/
def deadSession : SessionState :=
  { instancePresent := true, tornDown := true, fs := { dirs := [], files := [] } }

/-- Live session with an empty filesystem. -/
def liveSession : SessionState :=
  { instancePresent := true, tornDown := false, fs := { dirs := [], files := [] } }

/-- Hook state after teardown was requested by the effect cleanup while a
container was held. -/
def tornHookState : HookState :=
  { mounted := false, initializing := true, tornDown := true, containerRef := some 3,
    inst := none, serverUrl := none, isReady := false, isLoading := true, errMsg := none }

/-- Hook state holding a published container, teardown not yet requested. -/
def liveHookState : HookState :=
  { mounted := true, initializing := false, tornDown := false, containerRef := some 7,
    inst := some 7, serverUrl := none, isReady := true, isLoading := false, errMsg := none }

/-! ## Theorems -/

/-! ### C10 — terminal operations on an absent surface -/

/-- C10: every call to `writeToTerminal`, `clearTerminal` or `focusTerminal`
made while the terminal ref is empty — before initialization or after
disposal — is a silent no-op: it leaves the absent surface absent, and being
a total function of the model of optional chaining it cannot throw. -/
theorem terminal_ops_noop_when_absent (d : String) (t : Option TermSurface) :
    writeToTerminal none d = none ∧
    clearTerminal none = none ∧
    focusTerminal none = none ∧
    writeToTerminal (disposeTerminal t) d = none ∧
    clearTerminal (disposeTerminal t) = none ∧
    focusTerminal (disposeTerminal t) = none :=
  ⟨rfl, rfl, rfl, rfl, rfl, rfl⟩

/-! ### C7 — resize forwarding -/

/-- The shell bridge invariant: from the post-spawn state, whenever the resize
listener is still attached the process ref is still set (the exit handler and
the cleanup clear both together, the listener first). -/
theorem shellRun_listener_implies_ref (es : List ShellEvent) (s : ShellState)
    (h : s.listenerLive = true → s.refPresent = true) :
    (shellRun es s).listenerLive = true → (shellRun es s).refPresent = true := by
  induction es generalizing s with
  | nil => exact h
  | cons e t ih =>
    cases e with
    | exitHandler => exact ih _ (by intro hh; simp [shellStep] at hh)
    | cleanup => exact ih _ (by intro hh; simp [shellStep] at hh)
    | resize c r => exact ih _ h

/-- C7: a resize event with a zero or negative dimension is never forwarded to
the spawned shell process, whatever the state of the process ref; and in every
state reachable after the spawn in which the listener can still fire, a resize
with both dimensions strictly positive is always forwarded. -/
theorem resize_forwarding (es : List ShellEvent) (cols rows : Int) :
    ((cols ≤ 0 ∨ rows ≤ 0) → ∀ rp : Bool, resizeForward cols rows rp = false) ∧
    (0 < cols → 0 < rows → (shellRun es shellInit).listenerLive = true →
      resizeForward cols rows (shellRun es shellInit).refPresent = true) := by
  constructor
  · intro h rp
    rcases h with h | h
    · simp [resizeForward, not_lt.mpr h]
    · simp [resizeForward, not_lt.mpr h]
  · intro hc hr hl
    have href : (shellRun es shellInit).refPresent = true :=
      shellRun_listener_implies_ref es shellInit (fun _ => rfl) hl
    simp [resizeForward, hc, hr, href]

/-- C7 witness: a resize of 0×24 is dropped; after a run consisting of one
80×24 resize event the listener is still live and an 80×24 resize is
forwarded. -/
theorem resize_forwarding_witness :
    resizeForward 0 24 true = false ∧
    resizeForward 80 24 (shellRun [ShellEvent.resize 80 24] shellInit).refPresent = true :=
  ⟨(resize_forwarding [] 0 24).1 (Or.inl (by decide)) true,
   (resize_forwarding [ShellEvent.resize 80 24] 80 24).2 (by decide) (by decide) (by decide)⟩

/-! ### C3 — teardown monotonicity -/

/-- One-step form of teardown monotonicity: from a state whose torn-down flag
is set, no event clears the flag, no event publishes an instance, and a boot
that completes there tears its fresh instance down immediately. -/
theorem hookStep_preserves_teardown (e : HookEvent) (s : HookState)
    (h : s.tornDown = true) :
    (hookStep e s).1.tornDown = true ∧
    (∀ i, HookAction.publish i ∉ (hookStep e s).2) ∧
    (∀ i, e = HookEvent.bootOk i → (hookStep e s).2 = [HookAction.teardownNow i]) := by
  cases e with
  | initStart => simp [hookStep, h]
  | bootOk i => simp [hookStep, h]
  | bootFail msg =>
    cases hm : s.mounted <;> simp [hookStep, hm, h]
  | cleanup =>
    cases hc : s.containerRef <;> simp [hookStep, hc, h]
  | destroy =>
    cases hi : s.inst <;> simp [hookStep, hi, h]

/-- C3: teardown of a runtime session is monotonic.  Once the torn-down flag
is set, every subsequent sequence of hook events leaves it set, never emits a
`publish` action (the session is never handed out again), and every boot that
completes after the request has its freshly booted instance torn down
immediately. -/
theorem teardown_monotonic (es : List HookEvent) (s : HookState)
    (h : s.tornDown = true) :
    (hookRun es s).1.tornDown = true ∧
    (∀ i, HookAction.publish i ∉ (hookRun es s).2) ∧
    (∀ i, HookEvent.bootOk i ∈ es → HookAction.teardownNow i ∈ (hookRun es s).2) := by
  induction es generalizing s with
  | nil => simp [hookRun, h]
  | cons e t ih =>
    obtain ⟨h1, h2, h3⟩ := hookStep_preserves_teardown e s h
    obtain ⟨ih1, ih2, ih3⟩ := ih (hookStep e s).1 h1
    refine ⟨ih1, ?_, ?_⟩
    · intro i hmem
      simp only [hookRun, List.mem_append] at hmem
      rcases hmem with hmem | hmem
      · exact h2 i hmem
      · exact ih2 i hmem
    · intro i hmem
      simp only [List.mem_cons] at hmem
      rcases hmem with hmem | hmem
      · subst hmem
        simp only [hookRun, List.mem_append]
        exact Or.inl (by rw [h3 i rfl]; exact List.mem_singleton.mpr rfl)
      · simp only [hookRun, List.mem_append]
        exact Or.inr (ih3 i hmem)

/-- C3 witness: from a concrete torn-down hook state, after a boot completes
the flag is still set, the booted instance 5 is not published, and an
immediate teardown of it is emitted. -/
theorem teardown_monotonic_witness :
    (hookRun [HookEvent.bootOk 5] tornHookState).1.tornDown = true ∧
    HookAction.publish 5 ∉ (hookRun [HookEvent.bootOk 5] tornHookState).2 ∧
    HookAction.teardownNow 5 ∈ (hookRun [HookEvent.bootOk 5] tornHookState).2 :=
  ⟨(teardown_monotonic [HookEvent.bootOk 5] tornHookState rfl).1,
   (teardown_monotonic [HookEvent.bootOk 5] tornHookState rfl).2.1 5,
   (teardown_monotonic [HookEvent.bootOk 5] tornHookState rfl).2.2 5 (by decide)⟩

/-! ### C9 — release idempotence and deferred teardown -/

/-- C9: the effect cleanup (the release path of the session manager) is
idempotent — running it a second time changes nothing and emits nothing, and
running it when no container was ever captured only lowers the effect-local
`mounted` flag, touching neither the torn-down flag nor any teardown action —
and when it does take effect it emits a scheduled teardown with the 100 ms
grace delay, never a synchronous one. -/
theorem release_idempotent_and_deferred (s : HookState) :
    (s.containerRef = none → hookStep HookEvent.cleanup s = ({ s with mounted := false }, [])) ∧
    hookStep HookEvent.cleanup (hookStep HookEvent.cleanup s).1 =
      ((hookStep HookEvent.cleanup s).1, []) ∧
    (∀ i, s.containerRef = some i → s.tornDown = false →
      (hookStep HookEvent.cleanup s).2 = [HookAction.scheduleTeardown i 100]) ∧
    (∀ i, HookAction.teardownNow i ∉ (hookStep HookEvent.cleanup s).2) := by
  refine ⟨?_, ?_, ?_, ?_⟩
  · intro h
    simp [hookStep, h]
  · rcases s with ⟨m, ini, td, cr, inst, su, rdy, ld, em⟩
    cases cr with
    | none => simp [hookStep]
    | some i => cases td <;> simp [hookStep]
  · intro i hc ht
    simp [hookStep, hc, ht]
  · intro i
    rcases hc : s.containerRef with _ | j
    · simp [hookStep, hc]
    · cases ht : s.tornDown <;> simp [hookStep, hc, ht]

/-- C9 witness: on a hook state that never captured a container the cleanup
only lowers the mounted flag and emits nothing, and on a live state holding
container 7 the cleanup emits exactly a teardown scheduled after 100 ms. -/
theorem release_idempotent_and_deferred_witness :
    hookStep HookEvent.cleanup hookInit = ({ hookInit with mounted := false }, []) ∧
    (hookStep HookEvent.cleanup liveHookState).2 = [HookAction.scheduleTeardown 7 100] :=
  ⟨(release_idempotent_and_deferred hookInit).1 rfl,
   (release_idempotent_and_deferred liveHookState).2.2.1 7 rfl rfl⟩

/-! ### C8 — writeFileSync -/

/-- Joining a non-empty component list is one of the directories a recursive
mkdir on those components creates. -/
theorem intercalate_mem_ancestorPaths (parts : List String) (h : parts ≠ []) :
    String.intercalate "/" parts ∈ ancestorPaths parts := by
  have hl : 0 < parts.length := List.length_pos.mpr h
  unfold ancestorPaths
  refine List.mem_map.mpr ⟨parts.length - 1, ?_, ?_⟩
  · exact List.mem_range.mpr (Nat.sub_lt hl Nat.one_pos)
  · rw [Nat.sub_add_cancel hl, List.take_length]

/-- C8 counterexample: on a torn-down session, `writeFileSync` fails with the
fixed message `WebContainer instance is not available`, and that message does
not contain the path `a/b.txt` — so the error raised for an absent or
torn-down session does not include the path, contrary to the claim. -/
theorem writeFile_dead_error_lacks_path :
    writeFileSync deadSession "a/b.txt" "hello" =
      Except.error "WebContainer instance is not available" ∧
    hasSubSeq "a/b.txt".data "WebContainer instance is not available".data = false := by
  constructor
  · rfl
  · decide

/-- C8 (amended): on a live session, `writeFileSync` first creates every
intermediate directory of the path (none when the path has no directory part)
and then writes the file content; on an absent or torn-down session it fails
with the fixed descriptive message `WebContainer instance is not available`,
which does not mention the path. -/
theorem writeFile_behavior (st : SessionState) (path content : String)
    (hi : st.instancePresent = true) (ht : st.tornDown = false) :
    (∃ fs2, writeFileSync st path content = Except.ok fs2 ∧
       (path, content) ∈ fs2.files ∧
       fs2.dirs = st.fs.dirs ++
         (if String.intercalate "/" ((path.splitOn "/").dropLast) = "" then []
          else ancestorPaths ((path.splitOn "/").dropLast))) ∧
    (∀ st2 : SessionState, st2.instancePresent = false ∨ st2.tornDown = true →
      writeFileSync st2 path content =
        Except.error "WebContainer instance is not available") := by
  constructor
  · by_cases hf : String.intercalate "/" ((path.splitOn "/").dropLast) = ""
    · refine ⟨{ st.fs with files := (path, content) :: st.fs.files }, ?_, ?_, ?_⟩
      · simp [writeFileSync, hi, ht, hf, fsWriteFile, folderPathOf]
      · simp
      · simp [hf]
    · have hne : (path.splitOn "/").dropLast ≠ [] := by
        intro h0
        apply hf
        rw [h0]
        rfl
      have hmem : String.intercalate "/" ((path.splitOn "/").dropLast) ∈
          (mkdirRecursive st.fs ((path.splitOn "/").dropLast)).dirs := by
        simp only [mkdirRecursive, List.mem_append]
        exact Or.inr (intercalate_mem_ancestorPaths _ hne)
      have hor : String.intercalate "/" ((path.splitOn "/").dropLast) ∈ st.fs.dirs ∨
          String.intercalate "/" ((path.splitOn "/").dropLast) ∈
            ancestorPaths ((path.splitOn "/").dropLast) :=
        Or.inr (intercalate_mem_ancestorPaths _ hne)
      refine ⟨{ dirs := st.fs.dirs ++ ancestorPaths ((path.splitOn "/").dropLast),
                files := (path, content) :: st.fs.files }, ?_, ?_, ?_⟩
      · simp [writeFileSync, hi, ht, hf, fsWriteFile, folderPathOf, hmem, mkdirRecursive, hor]
      · simp
      · simp [hf]
  · intro st2 h2
    rcases h2 with h2 | h2 <;> simp [writeFileSync, h2]

/-- C8 witness: the live session satisfies the hypotheses, and applying the
theorem to it yields the fixed no-path error for the torn-down session. -/
theorem writeFile_behavior_witness :
    liveSession.instancePresent = true ∧ liveSession.tornDown = false ∧
    writeFileSync deadSession "a/b.txt" "hello" =
      Except.error "WebContainer instance is not available" :=
  ⟨rfl, rfl,
   (writeFile_behavior liveSession "a/b.txt" "hello" rfl rfl).2 deadSession (Or.inr rfl)⟩

/-! ### Helper lemmas about the setup pipeline -/

/-- The start phase always leaves the in-progress flag cleared. -/
theorem startPhase_clears_flag (env : SetupEnv) (s : PreviewState) :
    (startPhase env s).1.isSetupInProgress = false := by
  unfold startPhase setupCatch
  cases h : env.spawnStartErr <;> simp [h]

/-- The install phase always leaves the in-progress flag cleared. -/
theorem installPhase_clears_flag (env : SetupEnv) (s : PreviewState) :
    (installPhase env s).1.isSetupInProgress = false := by
  unfold installPhase setupCatch
  cases h : env.spawnInstallErr with
  | some m => simp [h]
  | none =>
    by_cases hx : env.installExitCode = 0
    · simp [h, hx, startPhase_clears_flag]
    · simp [h, hx]

/-- The mount phase always leaves the in-progress flag cleared. -/
theorem mountPhase_clears_flag (env : SetupEnv) (s : PreviewState) :
    (mountPhase env s).1.isSetupInProgress = false := by
  unfold mountPhase setupCatch
  cases h : env.mountErr <;> simp [h, installPhase_clears_flag]

/-- Every exit path of the setup body — reconnect, fatal mount error, fatal
spawn error, soft install failure, and full success — clears the in-progress
flag. -/
theorem runSetupBody_clears_flag (env : SetupEnv) (fr : Bool) (s : PreviewState) :
    (runSetupBody env fr s).1.isSetupInProgress = false := by
  unfold runSetupBody
  by_cases hr : isReconnectingOf env fr = true <;> simp [hr, mountPhase_clears_flag]

/-- When the start spawn succeeds, the start phase chooses `startCmdOf env`,
emits the warning exactly when the manifest read or parse threw, spawns the
chosen script and attaches the server-ready listener. -/
theorem startPhase_eq (env : SetupEnv) (s : PreviewState)
    (hss : env.spawnStartErr = none) :
    startPhase env s =
      ({ s with currentStep := 4, isSetupComplete := true, isSetupInProgress := false },
       (match env.readPkgStart with
        | none => [SetupEvent.termWrite pkgReadWarnMsg]
        | some raw =>
          match env.parseScriptsDev raw with
          | none => [SetupEvent.termWrite pkgReadWarnMsg]
          | some _ => []) ++
       [SetupEvent.termWrite (startingMsg (startCmdOf env)),
        SetupEvent.spawnStart (startCmdOf env), SetupEvent.attachServerReady]) := by
  unfold startPhase startCmdOf
  rcases hrs : env.readPkgStart with _ | raw
  · simp [hrs, hss]
  · rcases hpd : env.parseScriptsDev raw with _ | hd
    · simp [hrs, hpd, hss]
    · simp [hrs, hpd, hss]

/-- Full characterization of a successful non-reconnecting run: mount, install
and start all execute in order and the final state is complete with no error. -/
theorem setup_success_run (env : SetupEnv) (fr : Bool) (s : PreviewState)
    (hc : s.isSetupComplete = false) (hp : s.isSetupInProgress = false)
    (hr : isReconnectingOf env fr = false) (hm : env.mountErr = none)
    (hsi : env.spawnInstallErr = none) (hx : env.installExitCode = 0)
    (hss : env.spawnStartErr = none) :
    setupContainer env true false fr s =
      ({ s with currentStep := 4, internalError := none,
                isSetupComplete := true, isSetupInProgress := false },
       [SetupEvent.termWrite preparingMsg, SetupEvent.mountFiles,
        SetupEvent.termWrite mountedMsg, SetupEvent.termWrite installingMsg] ++
       (if env.rmLockOk = true then [SetupEvent.rmLockFile, SetupEvent.termWrite removedLockMsg]
        else []) ++
       [SetupEvent.spawnInstall, SetupEvent.termWrite depsInstalledMsg] ++
       ((match env.readPkgStart with
         | none => [SetupEvent.termWrite pkgReadWarnMsg]
         | some raw =>
           match env.parseScriptsDev raw with
           | none => [SetupEvent.termWrite pkgReadWarnMsg]
           | some _ => []) ++
        [SetupEvent.termWrite (startingMsg (startCmdOf env)),
         SetupEvent.spawnStart (startCmdOf env), SetupEvent.attachServerReady])) := by
  cases hrm : env.rmLockOk <;>
    simp [setupContainer, hc, hp, runSetupBody, hr, mountPhase, hm, installPhase, hsi, hx, hrm,
          startPhase_eq, hss]

/-! ### C1 — reconnect detection -/

/-- C1 counterexample: the sandbox root contains a readable `package.json`
whose content is the empty string and `forceReset` is false, yet the run does
not take the reconnecting branch — it calls mount and spawns the install
process, because the code tests JavaScript truthiness of the read content and
an empty string is falsy. -/
theorem reconnect_claim_fails_on_empty_manifest :
    SetupEvent.mountFiles ∈ (setupContainer envEmptyPkg true false false freshPreview).2 ∧
    SetupEvent.spawnInstall ∈ (setupContainer envEmptyPkg true false false freshPreview).2 := by
  constructor <;> decide

/-- C1 (amended): for every setup run where the sandbox root contains a
readable `package.json` with non-empty content and `forceReset` is false, the
run takes the reconnecting branch: it attaches the server-ready listener,
declares setup complete, clears the in-progress flag, and never calls mount
or spawns the install process. -/
theorem reconnect_on_nonempty_manifest (env : SetupEnv) (s : PreviewState) (c : String)
    (hc : s.isSetupComplete = false) (hp : s.isSetupInProgress = false)
    (hd : env.readPkgDetect = some c) (hne : c ≠ "") :
    (setupContainer env true false false s).1.isSetupComplete = true ∧
    (setupContainer env true false false s).1.isSetupInProgress = false ∧
    SetupEvent.attachServerReady ∈ (setupContainer env true false false s).2 ∧
    SetupEvent.mountFiles ∉ (setupContainer env true false false s).2 ∧
    SetupEvent.spawnInstall ∉ (setupContainer env true false false s).2 := by
  have hr : isReconnectingOf env false = true := by
    simp [isReconnectingOf, hd, hne]
  simp [setupContainer, hc, hp, runSetupBody, hr]

/-- C1 witness: a sandbox holding a manifest with content `x` reconnects. -/
theorem reconnect_on_nonempty_manifest_witness :
    (setupContainer envProvisioned true false false freshPreview).1.isSetupComplete = true ∧
    SetupEvent.attachServerReady ∈ (setupContainer envProvisioned true false false freshPreview).2 ∧
    SetupEvent.mountFiles ∉ (setupContainer envProvisioned true false false freshPreview).2 :=
  ⟨(reconnect_on_nonempty_manifest envProvisioned freshPreview "x" rfl rfl rfl (by decide)).1,
   (reconnect_on_nonempty_manifest envProvisioned freshPreview "x" rfl rfl rfl (by decide)).2.2.1,
   (reconnect_on_nonempty_manifest envProvisioned freshPreview "x" rfl rfl rfl
      (by decide)).2.2.2.1⟩

/-! ### C2 — soft install failure -/

/-- C2: when the install process exits non-zero on a non-reconnecting run,
the failure is soft: the error message is surfaced both in the component
state and on the terminal, setup ends in its complete-with-error terminal
state with the in-progress flag cleared, and the start stage is never begun
(no run script is ever spawned); the run returns normally instead of
throwing. -/
theorem install_failure_is_soft (env : SetupEnv) (fr : Bool) (s : PreviewState)
    (hc : s.isSetupComplete = false) (hp : s.isSetupInProgress = false)
    (hr : isReconnectingOf env fr = false)
    (hm : env.mountErr = none) (hsi : env.spawnInstallErr = none)
    (hx : env.installExitCode ≠ 0) :
    (setupContainer env true false fr s).1.internalError =
      some (installFailMsg env.installExitCode) ∧
    (setupContainer env true false fr s).1.isSetupComplete = true ∧
    (setupContainer env true false fr s).1.isSetupInProgress = false ∧
    SetupEvent.termWrite ("\r\n" ++ installFailMsg env.installExitCode ++ "\r\n") ∈
      (setupContainer env true false fr s).2 ∧
    (∀ cmd, SetupEvent.spawnStart cmd ∉ (setupContainer env true false fr s).2) := by
  cases hrm : env.rmLockOk <;>
    simp [setupContainer, hc, hp, runSetupBody, hr, mountPhase, hm, installPhase, hsi, hx, hrm]

/-- C2 witness: on a fresh sandbox whose install exits with code 1 the error
is recorded, setup is terminal, and no run script is spawned. -/
theorem install_failure_is_soft_witness :
    (setupContainer envInstallFails true false false freshPreview).1.internalError =
      some (installFailMsg 1) ∧
    (setupContainer envInstallFails true false false freshPreview).1.isSetupComplete = true ∧
    (setupContainer envInstallFails true false false freshPreview).1.isSetupInProgress = false ∧
    SetupEvent.spawnStart "dev" ∉ (setupContainer envInstallFails true false false freshPreview).2 :=
  ⟨(install_failure_is_soft envInstallFails false freshPreview rfl rfl rfl rfl rfl
      (by decide)).1,
   (install_failure_is_soft envInstallFails false freshPreview rfl rfl rfl rfl rfl
      (by decide)).2.1,
   (install_failure_is_soft envInstallFails false freshPreview rfl rfl rfl rfl rfl
      (by decide)).2.2.1,
   (install_failure_is_soft envInstallFails false freshPreview rfl rfl rfl rfl rfl
      (by decide)).2.2.2.2 "dev"⟩

/-! ### C4 — re-entrancy guard -/

/-- C4: re-invoking the setup entry point while a run is already in progress
is a no-op — the state is returned untouched and no effect at all (in
particular no mount, install or start call) is performed — and whenever the
entry point is invoked with the flag down, every exit path of the run
(reconnect, success, soft install failure, fatal error) leaves the
in-progress flag cleared again. -/
theorem setup_reentry_noop_and_flag_cleared (env : SetupEnv) (pl fr : Bool)
    (s : PreviewState) :
    (s.isSetupInProgress = true → setupContainer env true pl fr s = (s, [])) ∧
    (s.isSetupInProgress = false →
      (setupContainer env true pl fr s).1.isSetupInProgress = false) := by
  constructor
  · intro h
    simp [setupContainer, h]
  · intro h
    by_cases hc : s.isSetupComplete = true
    · simp [setupContainer, hc, h]
    · by_cases hp : pl = true
      · simp [setupContainer, hc, h, hp]
      · simp [setupContainer, hc, h, hp, runSetupBody_clears_flag]

/-- C4 witness: with a run in progress the entry point returns the state
unchanged with an empty trace, and from a fresh state the flag is down again
after the run. -/
theorem setup_reentry_noop_and_flag_cleared_witness :
    setupContainer envDev true false false busyPreview = (busyPreview, []) ∧
    (setupContainer envDev true false false freshPreview).1.isSetupInProgress = false :=
  ⟨(setup_reentry_noop_and_flag_cleared envDev false false busyPreview).1 rfl,
   (setup_reentry_noop_and_flag_cleared envDev false false freshPreview).2 rfl⟩

/-! ### C5 — forceReset re-provisions fully -/

/-- C5: with `forceReset` true the detection branch can never fire (for any
sandbox content), so a run on a fresh state executes mount, install and start
and attaches the server-ready listener; and the reset effect that precedes
the re-run clears the published preview URL and resets the setup progress to
its uninitialized state. -/
theorem force_reset_full_reprovision (env : SetupEnv) (s s2 : PreviewState)
    (hc : s2.isSetupComplete = false) (hp : s2.isSetupInProgress = false)
    (hm : env.mountErr = none) (hsi : env.spawnInstallErr = none)
    (hx : env.installExitCode = 0) (hss : env.spawnStartErr = none) :
    (forceResetEffect s).previewUrl = "" ∧
    (forceResetEffect s).currentStep = 0 ∧
    (forceResetEffect s).isSetupComplete = false ∧
    (forceResetEffect s).isSetupInProgress = false ∧
    (forceResetEffect s).internalError = none ∧
    (∀ env2 : SetupEnv, isReconnectingOf env2 true = false) ∧
    SetupEvent.mountFiles ∈ (setupContainer env true false true s2).2 ∧
    SetupEvent.spawnInstall ∈ (setupContainer env true false true s2).2 ∧
    SetupEvent.spawnStart (startCmdOf env) ∈ (setupContainer env true false true s2).2 ∧
    SetupEvent.attachServerReady ∈ (setupContainer env true false true s2).2 := by
  have hskip : ∀ env2 : SetupEnv, isReconnectingOf env2 true = false := by
    intro env2
    unfold isReconnectingOf
    cases env2.readPkgDetect <;> simp
  have e := setup_success_run env true s2 hc hp (hskip env) hm hsi hx hss
  refine ⟨rfl, rfl, rfl, rfl, rfl, hskip, ?_, ?_, ?_, ?_⟩ <;> rw [e] <;> simp

/-- C5 witness: on a concrete already-used preview state the reset clears the
URL, and a forced re-run on a provisioned sandbox still mounts and installs. -/
theorem force_reset_full_reprovision_witness :
    (forceResetEffect usedPreview).previewUrl = "" ∧
    SetupEvent.mountFiles ∈ (setupContainer envProvisioned true false true freshPreview).2 ∧
    SetupEvent.spawnInstall ∈ (setupContainer envProvisioned true false true freshPreview).2 :=
  ⟨(force_reset_full_reprovision envProvisioned usedPreview freshPreview rfl rfl rfl rfl rfl
      rfl).1,
   (force_reset_full_reprovision envProvisioned usedPreview freshPreview rfl rfl rfl rfl rfl
      rfl).2.2.2.2.2.2.1,
   (force_reset_full_reprovision envProvisioned usedPreview freshPreview rfl rfl rfl rfl rfl
      rfl).2.2.2.2.2.2.2.1⟩

/-! ### C6 — run-script selection -/

/-- C6: in the start stage of a successful run, the `dev` script is invoked
(and neither `start` nor a warning appears) exactly when the manifest is
readable, parses, and defines a truthy `scripts.dev`; when the dev script is
absent the conventional `start` script is used without a warning; and when
the manifest read or parse throws, `start` is used and a warning is written,
while setup still finishes complete and error-free. -/
theorem start_script_selection (env : SetupEnv) (fr : Bool) (s : PreviewState)
    (hc : s.isSetupComplete = false) (hp : s.isSetupInProgress = false)
    (hr : isReconnectingOf env fr = false) (hm : env.mountErr = none)
    (hsi : env.spawnInstallErr = none) (hx : env.installExitCode = 0)
    (hss : env.spawnStartErr = none) :
    (setupContainer env true false fr s).1.internalError = none ∧
    (setupContainer env true false fr s).1.isSetupComplete = true ∧
    (∀ raw, env.readPkgStart = some raw → env.parseScriptsDev raw = some true →
      SetupEvent.spawnStart "dev" ∈ (setupContainer env true false fr s).2 ∧
      SetupEvent.spawnStart "start" ∉ (setupContainer env true false fr s).2 ∧
      SetupEvent.termWrite pkgReadWarnMsg ∉ (setupContainer env true false fr s).2) ∧
    (∀ raw, env.readPkgStart = some raw → env.parseScriptsDev raw = some false →
      SetupEvent.spawnStart "start" ∈ (setupContainer env true false fr s).2 ∧
      SetupEvent.termWrite pkgReadWarnMsg ∉ (setupContainer env true false fr s).2) ∧
    (env.readPkgStart = none →
      SetupEvent.spawnStart "start" ∈ (setupContainer env true false fr s).2 ∧
      SetupEvent.termWrite pkgReadWarnMsg ∈ (setupContainer env true false fr s).2) ∧
    (∀ raw, env.readPkgStart = some raw → env.parseScriptsDev raw = none →
      SetupEvent.spawnStart "start" ∈ (setupContainer env true false fr s).2 ∧
      SetupEvent.termWrite pkgReadWarnMsg ∈ (setupContainer env true false fr s).2) := by
  have e := setup_success_run env fr s hc hp hr hm hsi hx hss
  refine ⟨by rw [e], by rw [e], ?_, ?_, ?_, ?_⟩
  · intro raw h1 h2
    cases hrm : env.rmLockOk <;>
      simp [e, h1, h2, hrm, startCmdOf, startingMsg, pkgReadWarnMsg, preparingMsg, mountedMsg,
            installingMsg, removedLockMsg, depsInstalledMsg]
  · intro raw h1 h2
    cases hrm : env.rmLockOk <;>
      simp [e, h1, h2, hrm, startCmdOf, startingMsg, pkgReadWarnMsg, preparingMsg, mountedMsg,
            installingMsg, removedLockMsg, depsInstalledMsg]
  · intro h1
    cases hrm : env.rmLockOk <;>
      simp [e, h1, hrm, startCmdOf]
  · intro raw h1 h2
    cases hrm : env.rmLockOk <;>
      simp [e, h1, h2, hrm, startCmdOf]

/-- C6 witness: on a sandbox whose manifest defines `scripts.dev`, the run
spawns the `dev` script, never the `start` script, and writes no warning. -/
theorem start_script_selection_witness :
    SetupEvent.spawnStart "dev" ∈ (setupContainer envDev true false false freshPreview).2 ∧
    SetupEvent.spawnStart "start" ∉ (setupContainer envDev true false false freshPreview).2 ∧
    SetupEvent.termWrite pkgReadWarnMsg ∉ (setupContainer envDev true false false freshPreview).2 :=
  (start_script_selection envDev false freshPreview rfl rfl rfl rfl rfl rfl rfl).2.2.1 "pkg"
    rfl rfl

end Editon
